import Mathlib

/-!
# Aether-Sight — verification of the card-scanner frontend

Shallow embedding of the Aether-Sight frontend (React/JS) state logic:
the AR scanner `GameRoom` component, the simpler `GameRoom.jsx` client,
the `useHighResCamera` hook, and a spec-modelled backend feature
extractor.  JS numbers are modelled as rationals (`ℚ`), JS state updates
as pure functions on explicit state records.
-/

namespace AetherSight

/-! ## AR scanner box state (unnamed/part_001, second `GameRoom`)

`const [boxWidth, setBoxWidth] = useState(250);`
`const boxHeight = boxWidth / 0.716;`
`handleWheel`: `if (e.deltaY !== 0) setBoxWidth(prev => Math.max(100, Math.min(600, prev - e.deltaY * 0.5)))`
-/

/-- Initial scanner box width in pixels (`useState(250)`). -/
def boxWidthInit : ℚ := 250

/-- One wheel event: `setBoxWidth(prev => Math.max(100, Math.min(600, prev - e.deltaY * 0.5)))`,
guarded by `if (e.deltaY !== 0)`. -/
def handleWheel (prev deltaY : ℚ) : ℚ :=
  if deltaY ≠ 0 then max 100 (min 600 (prev - deltaY * (1/2))) else prev

/-- Box width after a sequence of wheel events, starting from the initial width. -/
def boxWidthAfter (deltas : List ℚ) : ℚ :=
  deltas.foldl handleWheel boxWidthInit

/-- Scanner box height: `const boxHeight = boxWidth / 0.716;`
(MTG aspect ratio 63mm / 88mm = 0.716). -/
def boxHeight (boxWidth : ℚ) : ℚ :=
  boxWidth / (716/1000)

/-! ## Rotation state (unnamed/part_001, second `GameRoom`)

`const [rotation, setRotation] = useState(180);`
Flip Camera button: `setRotation(r => (r === 0 ? 180 : 0))`
-/

/-- Initial rotation (`useState(180)`). -/
def rotationInit : ℤ := 180

/-- One Flip Camera toggle: `setRotation(r => (r === 0 ? 180 : 0))`. -/
def flipRotation (r : ℤ) : ℤ :=
  if r = 0 then 180 else 0

/-- Rotation after `n` Flip Camera toggles. -/
def rotationAfter (n : ℕ) : ℤ :=
  flipRotation^[n] rotationInit

/-! ## Life tracker and commander damage (unnamed/part_001, first `GameRoom`)

`handleDamageChange`:
```
setCommanderDamage((prev) => {
  const next = Math.max(0, prev[opponent] + delta);
  setLife((current) => current - delta);
  return { ...prev, [opponent]: next };
});
```
-/

/-- Life-tracker state: commander damage per opponent name, plus life total. -/
structure LifeState where
  commanderDamage : String → ℤ
  life : ℤ

/-- `handleDamageChange(opponent, delta)`: clamps the opponent's damage at 0
and moves life by `-delta`. -/
def handleDamageChange (s : LifeState) (opponent : String) (delta : ℤ) : LifeState where
  commanderDamage := fun o =>
    if o = opponent then max 0 (s.commanderDamage opponent + delta)
    else s.commanderDamage o
  life := s.life - delta

/-! ## Keyword toggles (unnamed/part_001, first `GameRoom`)

`handleKeywordToggle`:
```
setKeywords((current) =>
  current.includes(keyword)
    ? current.filter((item) => item !== keyword)
    : [...current, keyword]
);
```
-/

/-- `handleKeywordToggle(keyword)` applied to the current keyword list. -/
def handleKeywordToggle (current : List String) (keyword : String) : List String :=
  if keyword ∈ current then current.filter (fun item => item ≠ keyword)
  else current ++ [keyword]

/-! ## Analyze responses and the scan UI (unnamed/part_001, first `GameRoom`)

The interval `scan` handler:
```
if (payload?.match && payload.card) {
  setDetectedCard(payload.card);
  setCandidateMatches(payload.candidates || []);
  ...toast timeout...
  setOverlayImage(payload.candidates?.[0]?.image_url || payload.image_url || null);
} else if (payload?.candidates?.length) {
  setCandidateMatches(payload.candidates);
}
```
and `handleCandidateSelect`:
```
setDetectedCard(candidate.card);
setOverlayImage(candidate.image_url || null);
setCandidateMatches([]);
```
-/

/-- A candidate entry of an analyze response (`{ card, set, image_url }`). -/
structure Candidate where
  card : String
  set : String
  image_url : Option String
deriving DecidableEq

/-- Body of an `/analyze` response as read by the handler.  The JS field
`match` is a Lean keyword, so it is named `matched` here.  A missing or
falsy `card` / `image_url` is `none`. -/
structure AnalyzePayload where
  matched : Bool
  card : Option String
  candidates : List Candidate
  image_url : Option String
deriving DecidableEq

/-- The UI state touched by the response handler: the detected-card toast,
the candidate-picker list, and the overlay image. -/
structure ScanUIState where
  detectedCard : Option String
  candidateMatches : List Candidate
  overlayImage : Option String
deriving DecidableEq

/-- Response handling inside `scan` (unnamed/part_001 lines 358-366). -/
def scanHandleResponse (s : ScanUIState) (p : AnalyzePayload) : ScanUIState :=
  if p.matched && p.card.isSome then
    { detectedCard := p.card
      candidateMatches := p.candidates
      overlayImage :=
        match p.candidates.head? with
        | some c =>
            match c.image_url with
            | some u => some u
            | none => p.image_url
        | none => p.image_url }
  else if !p.candidates.isEmpty then
    { s with candidateMatches := p.candidates }
  else s

/-- `handleCandidateSelect(candidate)` (unnamed/part_001 lines 403-407). -/
def handleCandidateSelect (_s : ScanUIState) (candidate : Candidate) :
    ScanUIState :=
  { detectedCard := some candidate.card
    overlayImage := candidate.image_url
    candidateMatches := [] }

/-- The confident-match UI state: the detected-card toast (and overlay) is
rendered; `Toast` renders exactly when `card` is non-null. -/
def confidentState (s : ScanUIState) : Prop :=
  s.detectedCard.isSome

/-- The ambiguous-candidates UI state: the candidate picker is rendered;
`CandidatePicker` renders exactly when the candidate list is nonempty. -/
def ambiguousState (s : ScanUIState) : Prop :=
  s.candidateMatches ≠ []

instance (s : ScanUIState) : Decidable (confidentState s) := by
  unfold confidentState; infer_instance

instance (s : ScanUIState) : Decidable (ambiguousState s) := by
  unfold ambiguousState; infer_instance

/-! ## Analyze requests (the query boundary)

The AR scanner client (unnamed/part_001 `handleScanClick`) sends
`{ image, target_x, target_y, box_scale }`; the basic client
(frontend/src/components/GameRoom.jsx `handleScanClick`) sends
`{ image, target_x, target_y }`.  Rotation is applied to the canvas before
encoding, never sent as a request field.
-/

/-- Body of an `/analyze` request.  The fields enumerate every key any
client ever puts in the JSON body; a key a given client does not send is
`none`. -/
structure AnalyzeRequest where
  image : String
  target_x : Option ℚ
  target_y : Option ℚ
  box_scale : Option ℚ
  rotation : Option ℤ
  mode : Option String
deriving DecidableEq

/-- Query built by the AR scanner `handleScanClick` (unnamed/part_001
lines 879-912): crop-center fractions from the click point and the bounding
rect, box scale `boxWidth / rect.width`; no rotation field (the rotation is
baked into the captured frame) and no mode field. -/
def buildScanQueryAR (image : String)
    (clientX clientY rectLeft rectTop rectWidth rectHeight boxWidth : ℚ) :
    AnalyzeRequest where
  image := image
  target_x := some ((clientX - rectLeft) / rectWidth)
  target_y := some ((clientY - rectTop) / rectHeight)
  box_scale := some (boxWidth / rectWidth)
  rotation := none
  mode := none

/-- Query built by the basic client's `handleScanClick`
(GameRoom.jsx lines 92-115): only the frame and the crop-center fractions. -/
def buildScanQueryBasic (image : String)
    (clientX clientY rectLeft rectTop rectWidth rectHeight : ℚ) :
    AnalyzeRequest where
  image := image
  target_x := some ((clientX - rectLeft) / rectWidth)
  target_y := some ((clientY - rectTop) / rectHeight)
  box_scale := none
  rotation := none
  mode := none

/-! ## The scan click handlers (error handling)

Both `handleScanClick` versions wrap the fetch in
`try { ... } catch { console.error } finally { setIsScanning(false) }`,
and set the detected card only on `res.ok` with `data.match`.
-/

/-- Decoded body of an OK `/analyze` response as read by `handleScanClick`. -/
structure ScanData where
  matched : Bool
  card : Option String
deriving DecidableEq

/-- Outcome of the fetch: the request may throw (network error), return a
non-OK status, or return OK with a decoded body. -/
inductive FetchOutcome where
  | netError : FetchOutcome
  | notOk : FetchOutcome
  | ok : ScanData → FetchOutcome
deriving DecidableEq

/-- Whether an outcome carries a confident match (`res.ok` and `data.match`). -/
def FetchOutcome.isMatch : FetchOutcome → Bool
  | FetchOutcome.ok d => d.matched
  | _ => false

/-- Component state touched by `handleScanClick`. -/
structure ScannerState where
  detectedCard : Option String
  isScanning : Bool
deriving DecidableEq

/-- The AR scanner `handleScanClick` (unnamed/part_001 lines 869-920):
guard clauses, `setIsScanning(true)`, the fetch (its outcome passed in),
`if (data.match) setDetectedCard(data.card)` on an OK response, and
`finally { setIsScanning(false) }`.  The `catch` block only logs, so the
handler is a total function of the outcome. -/
def handleScanClick (s : ScannerState)
    (targetIsButton insidePanel refsReady : Bool)
    (outcome : FetchOutcome) : ScannerState :=
  if targetIsButton then s
  else if s.isScanning || insidePanel then s
  else if s.detectedCard.isSome then { s with detectedCard := none }
  else if !refsReady then s
  else
    let scanning : ScannerState := { s with isScanning := true }
    let afterFetch :=
      match outcome with
      | FetchOutcome.ok d =>
          if d.matched then { scanning with detectedCard := d.card }
          else scanning
      | _ => scanning
    { afterFetch with isScanning := false }

/-- The basic client's `handleScanClick` (GameRoom.jsx lines 84-132):
`setIsScanning(true); setDetectedCard(null);` then the fetch, the match
check, and `finally { setIsScanning(false) }`. -/
def handleScanClickBasic (s : ScannerState) (refsReady : Bool)
    (outcome : FetchOutcome) : ScannerState :=
  if s.isScanning || !refsReady then s
  else
    let scanning : ScannerState := { detectedCard := none, isScanning := true }
    let afterFetch :=
      match outcome with
      | FetchOutcome.ok d =>
          if d.matched then { scanning with detectedCard := d.card }
          else scanning
      | _ => scanning
    { afterFetch with isScanning := false }

/-! ## The feature extractor (spec-modelled)

The backend feature extractor (`backend/main.py` / `backend/compile_brain.py`)
is not under `src/` — only its frontend callers are.  The definitions below
are modelled from the spec, §4.1: canonicalization (crop hint or a default
center-crop of fixed ratio 0.716, orientation normalization for a 0°/180°
rotation hint, fixed working resolution), a perceptual hash over a small
fixed grid thresholded against the mean, a bounded number of locally
distinctive keypoints with fixed-width binary descriptors, and a fixed-length
normalized intensity histogram.
-/

/-- Modelled from the spec: a decoded raster image (grayscale intensities,
row-major). -/
structure RawImage where
  width : ℕ
  height : ℕ
  pixels : List ℕ
deriving DecidableEq

/-- Modelled from the spec: a crop hint — normalized center fractions plus a
box scale (card width as a fraction of frame width). -/
structure CropHint where
  centerX : ℚ
  centerY : ℚ
  boxScale : ℚ
deriving DecidableEq

/-- Modelled from the spec: the canonical preprocessing parameters (fixed
working resolution, hash grid side, histogram bin count, keypoint bound and
distinctiveness threshold). -/
structure ExtractParams where
  resolution : ℕ
  hashGrid : ℕ
  histBins : ℕ
  maxKeypoints : ℕ
  keypointThreshold : ℕ
deriving DecidableEq

/-- Modelled from the spec: the per-card feature bundle — perceptual-hash bit
vector, keypoint descriptors, normalized color histogram. -/
structure CardFingerprint where
  phash : List Bool
  keypoints : List (ℕ × List Bool)
  histogram : List ℚ
deriving DecidableEq

/-- Pixel lookup with 0 outside the raster. -/
def pixelAt (img : RawImage) (x y : ℕ) : ℕ :=
  if x < img.width ∧ y < img.height then img.pixels.getD (y * img.width + x) 0
  else 0

/-- Modelled from the spec: the crop window `(x0, y0, w, h)` — the supplied
center/scale hint clamped to the image bounds, or the default center-crop of
fixed ratio 0.716. -/
def cropWindow (img : RawImage) (hint : Option CropHint) : ℕ × ℕ × ℕ × ℕ :=
  match hint with
  | some h =>
      let w := min img.width (max 1 (Int.toNat ⌊h.boxScale * img.width⌋))
      let ht := min img.height (max 1 (Int.toNat ⌊(w : ℚ) / (716/1000)⌋))
      let cx := Int.toNat ⌊h.centerX * img.width⌋
      let cy := Int.toNat ⌊h.centerY * img.height⌋
      (min (img.width - w) (cx - w / 2), min (img.height - ht) (cy - ht / 2),
        w, ht)
  | none =>
      let w := min img.width (max 1 (Int.toNat ⌊(716/1000 : ℚ) * img.height⌋))
      ((img.width - w) / 2, 0, w, img.height)

/-- Modelled from the spec: canonicalization — crop, normalize a 180°
rotation hint, resample to the fixed working resolution (nearest neighbor).
Returns the canonical raster row-major. -/
def canonicalize (p : ExtractParams) (img : RawImage) (hint : Option CropHint)
    (rot : Option ℕ) : List ℕ :=
  let win := cropWindow img hint
  let x0 := win.1
  let y0 := win.2.1
  let w := win.2.2.1
  let h := win.2.2.2
  (List.range p.resolution).flatMap fun j =>
    (List.range p.resolution).map fun i =>
      let dx := i * w / p.resolution
      let dy := j * h / p.resolution
      if rot = some 180 then pixelAt img (x0 + (w - 1 - dx)) (y0 + (h - 1 - dy))
      else pixelAt img (x0 + dx) (y0 + dy)

/-- Canonical-raster lookup at the working resolution. -/
def canonAt (p : ExtractParams) (canon : List ℕ) (x y : ℕ) : ℕ :=
  canon.getD (y * p.resolution + x) 0

/-- Modelled from the spec: the perceptual hash — downsample the canonical
raster to a small fixed grid and threshold each cell against the grid mean. -/
def pHash (p : ExtractParams) (canon : List ℕ) : List Bool :=
  let g := p.hashGrid
  let cells := (List.range (g * g)).map fun k =>
    canonAt p canon (k % g * p.resolution / g) (k / g * p.resolution / g)
  let mean := cells.sum / (g * g)
  cells.map fun c => decide (mean < c)

/-- Local distinctiveness score: absolute intensity difference against the
right and lower neighbors. -/
def distinctiveness (p : ExtractParams) (canon : List ℕ) (x y : ℕ) : ℕ :=
  let c := canonAt p canon x y
  let r := canonAt p canon (x + 1) y
  let d := canonAt p canon x (y + 1)
  (max c r - min c r) + (max c d - min c d)

/-- Modelled from the spec: bounded keypoint detection — the first
`maxKeypoints` raster positions whose distinctiveness exceeds the threshold,
each with a fixed-width binary descriptor comparing the point to its four
neighbors. -/
def keypointsOf (p : ExtractParams) (canon : List ℕ) : List (ℕ × List Bool) :=
  let hits := (List.range (p.resolution * p.resolution)).filter fun k =>
    decide (p.keypointThreshold <
      distinctiveness p canon (k % p.resolution) (k / p.resolution))
  (hits.take p.maxKeypoints).map fun k =>
    let x := k % p.resolution
    let y := k / p.resolution
    let c := canonAt p canon x y
    (k, [decide (c < canonAt p canon (x + 1) y),
         decide (c < canonAt p canon x (y + 1)),
         decide (canonAt p canon (x - 1) y < c),
         decide (canonAt p canon x (y - 1) < c)])

/-- Modelled from the spec: the fixed-length normalized intensity histogram. -/
def histogramOf (p : ExtractParams) (canon : List ℕ) : List ℚ :=
  let total := canon.length
  (List.range p.histBins).map fun b =>
    ((canon.filter fun c => decide (c * p.histBins / 256 = b)).length : ℚ)
      / total

/-- Modelled from the spec: `extract(image, crop_hint?, rotation?)` — the
full feature extractor: canonical preprocessing, then the three sub-features
computed from the same canonical raster. -/
def extract (p : ExtractParams) (img : RawImage) (hint : Option CropHint)
    (rot : Option ℕ) : CardFingerprint :=
  let canon := canonicalize p img hint rot
  { phash := pHash p canon
    keypoints := keypointsOf p canon
    histogram := histogramOf p canon }

/-! ## The high-resolution camera hook (useHighResCamera.js)

JS is single-threaded, so the hook executes as atomic segments: `startCamera`
runs synchronously up to its `await` (first calling `stopCamera`, then
clearing the error and storing the request in `pendingRequest`); the
continuation after the `await` runs later as one segment (the supersession
check, then `finally { pendingRequest.current = null }`); `stopCamera` is one
segment.  Requests are named by numeric ids; request `r` resolves to stream
`r`.  A stream is "stopped" once every one of its tracks has been stopped.
-/

/-- Atomic execution segments of the camera hook. -/
inductive CameraEvent where
  | start : ℕ → CameraEvent
  | resolveOk : ℕ → CameraEvent
  | resolveErr : ℕ → CameraEvent
  | stop : CameraEvent
deriving DecidableEq

/-- Hook state: the exposed stream state, the `pendingRequest` ref, the
collection of streams whose tracks have been stopped, and the error state. -/
structure CameraState where
  stream : Option ℕ
  pending : Option ℕ
  stopped : List ℕ
  hasError : Bool
deriving DecidableEq

/-- Tracks-stopped collection after stopping the currently exposed stream. -/
def stopTracks (s : CameraState) : List ℕ :=
  match s.stream with
  | some x => x :: s.stopped
  | none => s.stopped

/-- One atomic segment of the hook.

* `start r`: `stopCamera()` (clear `pendingRequest`, stop the exposed
  stream's tracks, set the stream state to null), `setError(null)`, then
  `pendingRequest.current = request r`.
* `resolveOk r`: the continuation after `await`: if
  `pendingRequest.current !== request` then stop the fresh stream's tracks
  and return, else `setStream(mediaStream)`; in both cases the `finally`
  clears `pendingRequest`.
* `resolveErr r`: the `catch` sets the error, the `finally` clears
  `pendingRequest`.
* `stop`: `stopCamera()` alone. -/
def cameraStep (s : CameraState) : CameraEvent → CameraState
  | CameraEvent.start r =>
      { stream := none, pending := some r, stopped := stopTracks s,
        hasError := false }
  | CameraEvent.resolveOk r =>
      if s.pending = some r then { s with stream := some r, pending := none }
      else { s with stopped := r :: s.stopped, pending := none }
  | CameraEvent.resolveErr _ =>
      { s with hasError := true, pending := none }
  | CameraEvent.stop =>
      { stream := none, pending := none, stopped := stopTracks s,
        hasError := s.hasError }

/-- Initial hook state (`useState(null)` twice, no pending request). -/
def cameraInit : CameraState :=
  { stream := none, pending := none, stopped := [], hasError := false }

/-- Run a sequence of segments from the initial state. -/
def cameraRun (events : List CameraEvent) : CameraState :=
  events.foldl cameraStep cameraInit

/-- The pending request each segment leaves behind. -/
def pendingOf : CameraEvent → Option ℕ
  | CameraEvent.start r => some r
  | _ => none

end AetherSight

namespace AetherSight

/-! ## Helper lemmas -/

/-- The wheel handler keeps the box width in `[100, 600]` whenever it starts there. -/
lemma handleWheel_mem (prev deltaY : ℚ) (h₁ : 100 ≤ prev) (h₂ : prev ≤ 600) :
    100 ≤ handleWheel prev deltaY ∧ handleWheel prev deltaY ≤ 600 := by
  unfold handleWheel
  split
  · constructor
    · exact le_max_left _ _
    · exact max_le (by norm_num) (min_le_left _ _)
  · exact ⟨h₁, h₂⟩

/-- Folding wheel events preserves membership in `[100, 600]`. -/
lemma foldl_handleWheel_mem (deltas : List ℚ) (w : ℚ) (h₁ : 100 ≤ w) (h₂ : w ≤ 600) :
    100 ≤ deltas.foldl handleWheel w ∧ deltas.foldl handleWheel w ≤ 600 := by
  induction deltas generalizing w with
  | nil => exact ⟨h₁, h₂⟩
  | cons d ds ih =>
      have h := handleWheel_mem w d h₁ h₂
      exact ih (handleWheel w d) h.1 h.2

/-- Every reachable box width lies in `[100, 600]`. -/
lemma boxWidthAfter_mem (deltas : List ℚ) :
    100 ≤ boxWidthAfter deltas ∧ boxWidthAfter deltas ≤ 600 :=
  foldl_handleWheel_mem deltas boxWidthInit (by norm_num [boxWidthInit])
    (by norm_num [boxWidthInit])

/-- Each segment leaves the `pendingRequest` ref determined by that segment
alone: `start r` leaves `some r`, every other segment clears it. -/
lemma cameraStep_pending (s : CameraState) (e : CameraEvent) :
    (cameraStep s e).pending = pendingOf e := by
  cases e with
  | start r => rfl
  | resolveOk r =>
      by_cases h : s.pending = some r <;> simp [cameraStep, pendingOf, h]
  | resolveErr r => rfl
  | stop => rfl

/-- The pending request after a trace ending in `e` is `pendingOf e`. -/
lemma foldl_concat_pending (s : CameraState) (es : List CameraEvent)
    (e : CameraEvent) :
    ((es ++ [e]).foldl cameraStep s).pending = pendingOf e := by
  rw [List.foldl_append, List.foldl_cons, List.foldl_nil]
  exact cameraStep_pending _ e

/-- A stream once stopped stays stopped across one segment. -/
lemma cameraStep_stopped_mono (s : CameraState) (e : CameraEvent) (x : ℕ)
    (hx : x ∈ s.stopped) : x ∈ (cameraStep s e).stopped := by
  cases e with
  | start r =>
      cases hs : s.stream <;> simp [cameraStep, stopTracks, hs, hx]
  | resolveOk r =>
      by_cases h : s.pending = some r <;> simp [cameraStep, h, hx]
  | resolveErr r => exact hx
  | stop =>
      cases hs : s.stream <;> simp [cameraStep, stopTracks, hs, hx]

/-- A stream once stopped stays stopped across any trace. -/
lemma foldl_stopped_mono (es : List CameraEvent) (s : CameraState) (x : ℕ)
    (hx : x ∈ s.stopped) : x ∈ (es.foldl cameraStep s).stopped := by
  induction es generalizing s with
  | nil => exact hx
  | cons e es ih =>
      rw [List.foldl_cons]
      exact ih _ (cameraStep_stopped_mono s e x hx)

/-- The exposed stream can only be a stream whose request resolved in the
trace: if request `x` never resolves in `es` and `x` is not exposed at the
start, `x` is not exposed at the end. -/
lemma stream_needs_resolve (es : List CameraEvent) (s : CameraState) (x : ℕ)
    (hes : CameraEvent.resolveOk x ∉ es) (hs : s.stream ≠ some x) :
    (es.foldl cameraStep s).stream ≠ some x := by
  induction es generalizing s with
  | nil => exact hs
  | cons e es ih =>
      rw [List.foldl_cons]
      refine ih _ (fun h => hes (List.mem_cons_of_mem _ h)) ?_
      cases e with
      | start r => simp [cameraStep]
      | resolveOk r =>
          have hrx : r ≠ x := fun h => hes (by simp [h])
          by_cases h : s.pending = some r
          · simp [cameraStep, h, hrx]
          · simpa [cameraStep, h] using hs
      | resolveErr r => exact hs
      | stop => simp [cameraStep]

/-! ## Claim theorems -/

/-- Claim C5: starting from the initial scanner box width of 250 pixels, after every
sequence of wheel (resize) events the box width remains in `[100, 600]`, so the
`box_scale` fraction sent with a query is bounded for any fixed positive frame width. -/
theorem C5_box_scale_bounded (deltas : List ℚ) :
    (100 ≤ boxWidthAfter deltas ∧ boxWidthAfter deltas ≤ 600) ∧
    ∀ frameWidth : ℚ, 0 < frameWidth →
      100 / frameWidth ≤ boxWidthAfter deltas / frameWidth ∧
      boxWidthAfter deltas / frameWidth ≤ 600 / frameWidth := by
  have h := boxWidthAfter_mem deltas
  exact ⟨h, fun fw hfw =>
    ⟨(div_le_div_iff_of_pos_right hfw).mpr h.1,
     (div_le_div_iff_of_pos_right hfw).mpr h.2⟩⟩

/-- Witness for C5 at the concrete wheel sequence `[30]` and frame width `2`. -/
theorem C5_box_scale_bounded_witness :
    (100 ≤ boxWidthAfter [30] ∧ boxWidthAfter [30] ≤ 600) ∧
    (100 / 2 ≤ boxWidthAfter [30] / 2 ∧ boxWidthAfter [30] / 2 ≤ 600 / 2) :=
  ⟨(C5_box_scale_bounded [30]).1, (C5_box_scale_bounded [30]).2 2 (by norm_num)⟩

/-- Claim C6: the rotation state starts at 180 and after any sequence of Flip Camera
toggles is always either 0 or 180 degrees; each toggle maps 0 to 180 and any
other value to 0. -/
theorem C6_rotation_enumerated (n : ℕ) :
    (rotationAfter n = 0 ∨ rotationAfter n = 180) ∧
    flipRotation 0 = 180 ∧ (∀ r : ℤ, r ≠ 0 → flipRotation r = 0) := by
  refine ⟨?_, rfl, fun r hr => by simp [flipRotation, hr]⟩
  induction n with
  | zero => right; rfl
  | succ m ih =>
      rw [rotationAfter, Function.iterate_succ_apply']
      rcases ih with h | h <;>
        simp [rotationAfter] at h <;> simp [h, flipRotation]

/-- Witness for C6 at three toggles and at rotation value 180. -/
theorem C6_rotation_enumerated_witness :
    (rotationAfter 3 = 0 ∨ rotationAfter 3 = 180) ∧
    flipRotation 0 = 180 ∧ flipRotation 180 = 0 :=
  ⟨(C6_rotation_enumerated 3).1, (C6_rotation_enumerated 3).2.1,
   (C6_rotation_enumerated 3).2.2 180 (by decide)⟩

/-- Claim C7: for every reachable box width, the scanner box height equals
`boxWidth / 0.716`, so the width-to-height ratio of the crop box is the
constant 0.716. -/
theorem C7_aspect_ratio (deltas : List ℚ) :
    boxHeight (boxWidthAfter deltas) = boxWidthAfter deltas / (716/1000) ∧
    boxWidthAfter deltas / boxHeight (boxWidthAfter deltas) = 716/1000 := by
  have h := boxWidthAfter_mem deltas
  have hne : boxWidthAfter deltas ≠ 0 :=
    ne_of_gt (lt_of_lt_of_le (by norm_num) h.1)
  refine ⟨rfl, ?_⟩
  rw [boxHeight, div_div_eq_mul_div, mul_comm, mul_div_assoc, div_self hne,
    mul_one]

/-- Claim C8: `handleDamageChange` sets the opponent's commander damage to
`max 0 (old + delta)` (never negative), leaves all other opponents' entries
unchanged, and always changes life by exactly `-delta`, for `delta ∈ {-1, +1}`. -/
theorem C8_damage_clamped (s : LifeState) (opponent : String) (delta : ℤ)
    (_hdelta : delta = -1 ∨ delta = 1) :
    (handleDamageChange s opponent delta).commanderDamage opponent
        = max 0 (s.commanderDamage opponent + delta) ∧
    0 ≤ (handleDamageChange s opponent delta).commanderDamage opponent ∧
    (∀ o : String, o ≠ opponent →
      (handleDamageChange s opponent delta).commanderDamage o
        = s.commanderDamage o) ∧
    (handleDamageChange s opponent delta).life = s.life - delta := by
  refine ⟨by simp [handleDamageChange], ?_, fun o ho => ?_, rfl⟩
  · simp only [handleDamageChange, if_pos rfl]
    exact le_max_left _ _
  · simp [handleDamageChange, ho]

/-- Witness for C8: decrementing an opponent already at 0 damage leaves damage
at 0 but still increases life by 1. -/
theorem C8_damage_clamped_witness :
    (handleDamageChange ⟨fun _ => 0, 40⟩ "Opponent A" (-1)).commanderDamage
        "Opponent A" = max 0 (0 + -1) ∧
    0 ≤ (handleDamageChange ⟨fun _ => 0, 40⟩ "Opponent A" (-1)).commanderDamage
        "Opponent A" ∧
    (handleDamageChange ⟨fun _ => 0, 40⟩ "Opponent A" (-1)).commanderDamage
        "Opponent B" = 0 ∧
    (handleDamageChange ⟨fun _ => 0, 40⟩ "Opponent A" (-1)).life = 40 - (-1) := by
  have h := C8_damage_clamped ⟨fun _ => 0, 40⟩ "Opponent A" (-1) (Or.inl rfl)
  exact ⟨h.1, h.2.1, h.2.2.1 "Opponent B" (by decide), h.2.2.2⟩

/-- Claim C10: `handleKeywordToggle` flips the toggled keyword's membership,
keeps every other keyword's membership, and (when the list holds at most one
copy of the keyword) toggling twice restores the original members. -/
theorem C10_keyword_toggle (current : List String) (keyword : String) :
    (keyword ∈ handleKeywordToggle current keyword ↔ keyword ∉ current) ∧
    (∀ other : String, other ≠ keyword →
      (other ∈ handleKeywordToggle current keyword ↔ other ∈ current)) ∧
    (current.count keyword ≤ 1 →
      ∀ k : String,
        k ∈ handleKeywordToggle (handleKeywordToggle current keyword) keyword
          ↔ k ∈ current) := by
  by_cases hmem : keyword ∈ current
  · have h1 : handleKeywordToggle current keyword
        = current.filter (fun item => item ≠ keyword) := by
      rw [handleKeywordToggle, if_pos hmem]
    have hnot : keyword ∉ current.filter (fun item => item ≠ keyword) := by
      simp [List.mem_filter]
    have h2 : handleKeywordToggle (current.filter (fun item => item ≠ keyword))
          keyword
        = current.filter (fun item => item ≠ keyword) ++ [keyword] := by
      rw [handleKeywordToggle, if_neg hnot]
    refine ⟨?_, fun other hother => ?_, fun _ k => ?_⟩
    · simp [h1, List.mem_filter, hmem]
    · simp [h1, List.mem_filter, hother]
    · rw [h1, h2]
      by_cases hk : k = keyword
      · simp [hk, hmem]
      · simp [List.mem_filter, hk]
  · have h1 : handleKeywordToggle current keyword = current ++ [keyword] := by
      rw [handleKeywordToggle, if_neg hmem]
    have hin : keyword ∈ current ++ [keyword] := by simp
    have h2 : handleKeywordToggle (current ++ [keyword]) keyword
        = (current ++ [keyword]).filter (fun item => item ≠ keyword) := by
      rw [handleKeywordToggle, if_pos hin]
    refine ⟨?_, fun other hother => ?_, fun _ k => ?_⟩
    · simp [h1, hmem]
    · simp [h1, hother]
    · rw [h1, h2]
      by_cases hk : k = keyword
      · simp [hk, List.mem_filter, hmem]
      · simp [List.mem_filter, hk]

/-- Claim C1 as stated fails on the code: a response with `match = true`, a
card name, and a nonempty candidate list puts the UI into the confident-match
state (toast and overlay) and the ambiguous-candidates state (picker shown)
simultaneously, because the match branch stores `payload.candidates` instead
of clearing them. -/
theorem C1_counterexample :
    confidentState
        (scanHandleResponse ⟨none, [], none⟩
          ⟨true, some "Lightning Bolt", [⟨"Shock", "m21", none⟩], none⟩) ∧
    ambiguousState
        (scanHandleResponse ⟨none, [], none⟩
          ⟨true, some "Lightning Bolt", [⟨"Shock", "m21", none⟩], none⟩) := by
  constructor <;> decide

/-- Claim C1 amended: provided the response is well-formed (a confident match
carries an empty candidate list, as the spec's MatchResult requires) and no
confident match is currently displayed, handling a response never yields both
the confident-match state and the ambiguous-candidates state; and selecting a
candidate always yields exactly the confident state with an empty picker. -/
theorem C1_exclusive_states (s : ScanUIState) (p : AnalyzePayload)
    (hwf : p.matched = true → p.candidates = [])
    (hs : s.detectedCard = none) :
    ¬(confidentState (scanHandleResponse s p) ∧
        ambiguousState (scanHandleResponse s p)) ∧
    ∀ c : Candidate,
      confidentState (handleCandidateSelect s c) ∧
      ¬ambiguousState (handleCandidateSelect s c) := by
  refine ⟨?_, fun c => ⟨rfl, by simp [ambiguousState, handleCandidateSelect]⟩⟩
  unfold scanHandleResponse
  by_cases hmatch : p.matched && p.card.isSome
  · have hm : p.matched = true ∧ p.card.isSome = true := by simpa using hmatch
    have hcand : p.candidates = [] := hwf hm.1
    simp [hmatch, ambiguousState, hcand]
  · rw [if_neg hmatch]
    by_cases hne : !p.candidates.isEmpty
    · simp [hne, confidentState, hs]
    · simp [hne, confidentState, hs]

/-- Witness for the amended C1 at a concrete no-match response with one
candidate, applied to the empty UI state. -/
theorem C1_exclusive_states_witness :
    ¬(confidentState
          (scanHandleResponse ⟨none, [], none⟩
            ⟨false, none, [⟨"Shock", "m21", none⟩], none⟩) ∧
        ambiguousState
          (scanHandleResponse ⟨none, [], none⟩
            ⟨false, none, [⟨"Shock", "m21", none⟩], none⟩)) ∧
    (confidentState
        (handleCandidateSelect ⟨none, [], none⟩ ⟨"Shock", "m21", none⟩) ∧
      ¬ambiguousState
          (handleCandidateSelect ⟨none, [], none⟩ ⟨"Shock", "m21", none⟩)) := by
  have h := C1_exclusive_states ⟨none, [], none⟩
    ⟨false, none, [⟨"Shock", "m21", none⟩], none⟩ (by simp) rfl
  exact ⟨h.1, h.2 ⟨"Shock", "m21", none⟩⟩

/-- Claim C2 as stated fails on the code: the basic client's `handleScanClick`
(GameRoom.jsx) sends a query with no box-scale field at all, so not every
query carries a box-scale. -/
theorem C2_counterexample :
    (buildScanQueryBasic "frame" 50 25 0 0 100 50).box_scale = none := rfl

/-- Claim C2 amended: a query from the AR scanner client consists of exactly
the captured frame, crop-center fractions (each in `[0,1]` when the click lies
inside the element's bounding rect), and the box-scale `boxWidth / rect.width`,
with no rotation field and no other matching inputs; a query from the basic
client carries only the frame and the same crop-center fractions. -/
theorem C2_query_shape (image : String)
    (clientX clientY rectLeft rectTop rectWidth rectHeight boxWidth : ℚ)
    (hx₁ : rectLeft ≤ clientX) (hx₂ : clientX ≤ rectLeft + rectWidth)
    (hy₁ : rectTop ≤ clientY) (hy₂ : clientY ≤ rectTop + rectHeight)
    (hw : 0 < rectWidth) (hh : 0 < rectHeight) :
    (buildScanQueryAR image clientX clientY rectLeft rectTop rectWidth
        rectHeight boxWidth
      = { image := image
          target_x := some ((clientX - rectLeft) / rectWidth)
          target_y := some ((clientY - rectTop) / rectHeight)
          box_scale := some (boxWidth / rectWidth)
          rotation := none
          mode := none }) ∧
    (0 ≤ (clientX - rectLeft) / rectWidth ∧
      (clientX - rectLeft) / rectWidth ≤ 1) ∧
    (0 ≤ (clientY - rectTop) / rectHeight ∧
      (clientY - rectTop) / rectHeight ≤ 1) ∧
    (buildScanQueryBasic image clientX clientY rectLeft rectTop rectWidth
        rectHeight
      = { image := image
          target_x := some ((clientX - rectLeft) / rectWidth)
          target_y := some ((clientY - rectTop) / rectHeight)
          box_scale := none
          rotation := none
          mode := none }) := by
  refine ⟨rfl, ⟨?_, ?_⟩, ⟨?_, ?_⟩, rfl⟩
  · exact div_nonneg (by linarith) hw.le
  · exact (div_le_one hw).mpr (by linarith)
  · exact div_nonneg (by linarith) hh.le
  · exact (div_le_one hh).mpr (by linarith)

/-- Witness for the amended C2 at a concrete click inside a 100 by 50 rect. -/
theorem C2_query_shape_witness :
    (buildScanQueryAR "img" 50 25 0 0 100 50 250
      = { image := "img"
          target_x := some ((50 - 0) / 100)
          target_y := some ((25 - 0) / 50)
          box_scale := some (250 / 100)
          rotation := none
          mode := none }) ∧
    (0 ≤ ((50 : ℚ) - 0) / 100 ∧ ((50 : ℚ) - 0) / 100 ≤ 1) ∧
    (0 ≤ ((25 : ℚ) - 0) / 50 ∧ ((25 : ℚ) - 0) / 50 ≤ 1) ∧
    (buildScanQueryBasic "img" 50 25 0 0 100 50
      = { image := "img"
          target_x := some ((50 - 0) / 100)
          target_y := some ((25 - 0) / 50)
          box_scale := none
          rotation := none
          mode := none }) :=
  C2_query_shape "img" 50 25 0 0 100 50 250 (by norm_num) (by norm_num)
    (by norm_num) (by norm_num) (by norm_num) (by norm_num)

/-- Claim C4: a no-match outcome never raises.  Both scan-click handlers are
total functions of the fetch outcome (the `catch` block only logs); on the
scanning path, whenever the outcome is a network error, a non-OK status, or an
OK response with `match = false`, the detected-card state stays unset, and the
scanning flag is reset to false for every outcome whatsoever. -/
theorem C4_no_match_is_not_an_error (s : ScannerState) (outcome : FetchOutcome)
    (hscan : s.isScanning = false) (hcard : s.detectedCard = none) :
    (handleScanClick s false false true outcome).isScanning = false ∧
    (outcome.isMatch = false →
      (handleScanClick s false false true outcome).detectedCard = none) ∧
    (handleScanClickBasic s true outcome).isScanning = false ∧
    (outcome.isMatch = false →
      (handleScanClickBasic s true outcome).detectedCard = none) := by
  cases outcome with
  | netError =>
      simp [handleScanClick, handleScanClickBasic, hscan, hcard,
        FetchOutcome.isMatch]
  | notOk =>
      simp [handleScanClick, handleScanClickBasic, hscan, hcard,
        FetchOutcome.isMatch]
  | ok d =>
      cases hd : d.matched <;>
        simp [handleScanClick, handleScanClickBasic, hscan, hcard,
          FetchOutcome.isMatch, hd]

/-- Witness for C4 at the idle state and a concrete no-match OK response. -/
theorem C4_no_match_is_not_an_error_witness :
    (handleScanClick ⟨none, false⟩ false false true
        (FetchOutcome.ok ⟨false, none⟩)).isScanning = false ∧
    (handleScanClick ⟨none, false⟩ false false true
        (FetchOutcome.ok ⟨false, none⟩)).detectedCard = none ∧
    (handleScanClickBasic ⟨none, false⟩ true
        (FetchOutcome.ok ⟨false, none⟩)).isScanning = false ∧
    (handleScanClickBasic ⟨none, false⟩ true
        (FetchOutcome.ok ⟨false, none⟩)).detectedCard = none := by
  have h := C4_no_match_is_not_an_error ⟨none, false⟩
    (FetchOutcome.ok ⟨false, none⟩) rfl rfl
  exact ⟨h.1, h.2.1 rfl, h.2.2.1, h.2.2.2 rfl⟩

/-- Claim C3 (spec-modelled): the extractor is deterministic — two calls on
the same image bytes with the same crop/rotation hints and the same canonical
preprocessing parameters return bit-identical fingerprints.  In the pure
embedding, `extract` is a function of exactly these inputs and nothing else,
so equal inputs give equal (decidably comparable) fingerprints. -/
theorem C3_extract_deterministic (p₁ p₂ : ExtractParams)
    (img₁ img₂ : RawImage) (hint₁ hint₂ : Option CropHint)
    (rot₁ rot₂ : Option ℕ) (hp : p₁ = p₂) (himg : img₁ = img₂)
    (hhint : hint₁ = hint₂) (hrot : rot₁ = rot₂) :
    extract p₁ img₁ hint₁ rot₁ = extract p₂ img₂ hint₂ rot₂ := by
  subst hp; subst himg; subst hhint; subst hrot; rfl

/-- Witness for C3 at a concrete 3 by 3 image with a concrete crop hint and
rotation hint. -/
theorem C3_extract_deterministic_witness :
    extract ⟨4, 2, 4, 8, 10⟩ ⟨3, 3, [0, 255, 128, 64, 32, 16, 200, 100, 50]⟩
        (some ⟨1/2, 1/2, 1/2⟩) (some 180)
      = extract ⟨4, 2, 4, 8, 10⟩ ⟨3, 3, [0, 255, 128, 64, 32, 16, 200, 100, 50]⟩
        (some ⟨1/2, 1/2, 1/2⟩) (some 180) :=
  C3_extract_deterministic _ _ _ _ _ _ _ _ rfl rfl rfl rfl

/-- Claim C9: the camera hook never exposes a superseded stream.  If, after
`startCamera` issues request `r`, another `startCamera` or `stopCamera`
segment runs before request `r` resolves, then once `r` resolves its stream's
tracks are stopped (and stay stopped over any continuation), and the hook's
stream state never holds stream `r` — neither before the resolution, nor at
it, nor at any point afterwards.  Moreover, after any `stopCamera` segment
the exposed stream is null and the previously exposed stream's tracks have
been stopped. -/
theorem C9_camera_never_exposes_superseded
    (t₁ t₂ t₃ : List CameraEvent) (r : ℕ)
    (hsup : ∃ e ∈ t₂, e = CameraEvent.stop ∨ ∃ q, e = CameraEvent.start q)
    (hstart : CameraEvent.start r ∉ t₂)
    (hr₁ : CameraEvent.resolveOk r ∉ t₁)
    (hr₂ : CameraEvent.resolveOk r ∉ t₂)
    (hr₃ : CameraEvent.resolveOk r ∉ t₃) :
    ((∀ p, p <+: t₃ →
        r ∈ (cameraRun (t₁ ++ CameraEvent.start r :: t₂ ++
              CameraEvent.resolveOk r :: p)).stopped) ∧
      (∀ p, p <+: t₁ ++ CameraEvent.start r :: t₂ →
        (cameraRun p).stream ≠ some r) ∧
      (∀ p, p <+: t₃ →
        (cameraRun (t₁ ++ CameraEvent.start r :: t₂ ++
              CameraEvent.resolveOk r :: p)).stream ≠ some r)) ∧
    (∀ s : CameraState,
      (cameraStep s CameraEvent.stop).stream = none ∧
      ∀ x, s.stream = some x → x ∈ (cameraStep s CameraEvent.stop).stopped) := by
  obtain ⟨e₀, he₀, -⟩ := hsup
  have ht₂ : t₂ ≠ [] := List.ne_nil_of_mem he₀
  -- the request `r` never resolves in the pre-resolution part of the trace
  have hrA : CameraEvent.resolveOk r ∉ t₁ ++ CameraEvent.start r :: t₂ := by
    intro h
    rcases List.mem_append.mp h with h | h
    · exact hr₁ h
    · rcases List.mem_cons.mp h with h | h
      · exact CameraEvent.noConfusion h
      · exact hr₂ h
  -- the state just before the resolution of request `r`
  have hmidstream :
      (cameraRun (t₁ ++ CameraEvent.start r :: t₂)).stream ≠ some r :=
    stream_needs_resolve _ cameraInit r hrA (by simp [cameraInit])
  -- the pending ref no longer holds request `r` there
  have hmidpend :
      (cameraRun (t₁ ++ CameraEvent.start r :: t₂)).pending ≠ some r := by
    obtain ⟨t₂', elast, h2⟩ := (List.eq_nil_or_concat t₂).resolve_left ht₂
    rw [List.concat_eq_append] at h2
    have hsplit : t₁ ++ CameraEvent.start r :: t₂
        = (t₁ ++ CameraEvent.start r :: t₂') ++ [elast] := by
      rw [h2]; simp
    rw [cameraRun, hsplit, foldl_concat_pending]
    cases elast with
    | start q =>
        have hq : q ≠ r := by
          intro h
          exact hstart (by rw [h2]; simp [h])
        simp only [pendingOf, ne_eq, Option.some.injEq]
        exact hq
    | resolveOk q => simp [pendingOf]
    | resolveErr q => simp [pendingOf]
    | stop => simp [pendingOf]
  -- the resolution of the superseded request: tracks stopped, stream untouched
  have hafterStream :
      (cameraStep (cameraRun (t₁ ++ CameraEvent.start r :: t₂))
          (CameraEvent.resolveOk r)).stream
        = (cameraRun (t₁ ++ CameraEvent.start r :: t₂)).stream := by
    simp [cameraStep, hmidpend]
  have hafterStopped :
      r ∈ (cameraStep (cameraRun (t₁ ++ CameraEvent.start r :: t₂))
          (CameraEvent.resolveOk r)).stopped := by
    simp [cameraStep, hmidpend]
  have hrun : ∀ p : List CameraEvent,
      cameraRun (t₁ ++ CameraEvent.start r :: t₂ ++ CameraEvent.resolveOk r :: p)
        = p.foldl cameraStep (cameraStep
            (cameraRun (t₁ ++ CameraEvent.start r :: t₂))
            (CameraEvent.resolveOk r)) := by
    intro p
    have hsplit2 :
        t₁ ++ CameraEvent.start r :: t₂ ++ CameraEvent.resolveOk r :: p
          = (t₁ ++ CameraEvent.start r :: t₂) ++ CameraEvent.resolveOk r :: p := by
      simp
    rw [cameraRun, cameraRun, hsplit2, List.foldl_append, List.foldl_cons]
  refine ⟨⟨fun p _ => ?_, fun p hp => ?_, fun p hp => ?_⟩,
    fun s => ⟨rfl, fun x hx => ?_⟩⟩
  · rw [hrun p]
    exact foldl_stopped_mono p _ r hafterStopped
  · exact stream_needs_resolve p cameraInit r
      (fun h => hrA (hp.subset h)) (by simp [cameraInit])
  · rw [hrun p]
    refine stream_needs_resolve p _ r (fun h => hr₃ (hp.subset h)) ?_
    rw [hafterStream]
    exact hmidstream
  · simp [cameraStep, stopTracks, hx]

/-- Witness for C9: request 0 is superseded by a second `startCamera`
(request 1) before it resolves; after the trace, stream 0's tracks are
stopped and stream 0 is not exposed; a `stopCamera` on an exposed stream 5
nulls the stream state and stops stream 5's tracks. -/
theorem C9_camera_never_exposes_superseded_witness :
    0 ∈ (cameraRun ([] ++ CameraEvent.start 0 :: [CameraEvent.start 1] ++
          CameraEvent.resolveOk 0 :: [CameraEvent.resolveOk 1])).stopped ∧
    (cameraRun ([] ++ CameraEvent.start 0 :: [CameraEvent.start 1] ++
          CameraEvent.resolveOk 0 :: [CameraEvent.resolveOk 1])).stream
        ≠ some 0 ∧
    (cameraStep ⟨some 5, none, [], false⟩ CameraEvent.stop).stream = none ∧
    5 ∈ (cameraStep ⟨some 5, none, [], false⟩ CameraEvent.stop).stopped := by
  have h := C9_camera_never_exposes_superseded [] [CameraEvent.start 1]
    [CameraEvent.resolveOk 1] 0
    ⟨CameraEvent.start 1, by simp, Or.inr ⟨1, rfl⟩⟩
    (by decide) (by decide) (by decide) (by decide)
  exact ⟨h.1.1 [CameraEvent.resolveOk 1] (List.prefix_refl _),
    h.1.2.2 [CameraEvent.resolveOk 1] (List.prefix_refl _),
    (h.2 ⟨some 5, none, [], false⟩).1,
    (h.2 ⟨some 5, none, [], false⟩).2 5 rfl⟩

/-- Witness for C10 at `current = ["Flying"]`, `keyword = "Lifelink"`. -/
theorem C10_keyword_toggle_witness :
    ("Lifelink" ∈ handleKeywordToggle ["Flying"] "Lifelink"
        ↔ "Lifelink" ∉ (["Flying"] : List String)) ∧
    ("Flying" ∈ handleKeywordToggle ["Flying"] "Lifelink"
        ↔ "Flying" ∈ (["Flying"] : List String)) ∧
    ("Flying" ∈ handleKeywordToggle (handleKeywordToggle ["Flying"] "Lifelink")
          "Lifelink"
        ↔ "Flying" ∈ (["Flying"] : List String)) :=
  ⟨(C10_keyword_toggle ["Flying"] "Lifelink").1,
   (C10_keyword_toggle ["Flying"] "Lifelink").2.1 "Flying" (by decide),
   (C10_keyword_toggle ["Flying"] "Lifelink").2.2 (by decide) "Flying"⟩

end AetherSight
